import Mathlib

/-!
A shallow embedding of `importlib_resources/__init__.py` together with the
CPython library operations it calls (`os.path` in its POSIX variant,
`importlib.import_module`, `io.BytesIO`), and theorems about the `open`
operation.  Machine strings are Lean `String`s, byte values are `List Nat`,
and fallible Python calls return `Except PyError`.  Every helper that the
source reaches through the standard library is re-implemented here by
structural recursion so that concrete calls reduce in the kernel.
-/

/-- The Python exception classes that can flow through `open`. -/
inductive PyError where
  | typeError (msg : String)
  | valueError (msg : String)
  | attributeError (msg : String)
  | moduleNotFoundError (msg : String)
  | fileNotFoundError (msg : String)
  | osError (msg : String)
  deriving Repr, DecidableEq

/-- The class of an exception, forgetting its message. -/
inductive ErrKind where
  | typeErr
  | valueErr
  | attributeErr
  | moduleNotFoundErr
  | fileNotFoundErr
  | osErr
  deriving Repr, DecidableEq

/-- Forget an exception's message, keeping its class. -/
def PyError.kind : PyError → ErrKind
  | .typeError _ => .typeErr
  | .valueError _ => .valueErr
  | .attributeError _ => .attributeErr
  | .moduleNotFoundError _ => .moduleNotFoundErr
  | .fileNotFoundError _ => .fileNotFoundErr
  | .osError _ => .osErr

/-- A single-quote character as a string, used when modelling Python repr. -/
def squo : String := "\x27"

/-- `Path = Union[str, os.PathLike]`: the `path` argument is either a plain
string or a path-like object, modelled by the string its `__fspath__`
method returns. -/
inductive PathInput where
  | str (s : String)
  | purePosixPath (s : String)
  deriving Repr, DecidableEq

/-- `os.fspath`: the string form of a path argument, which is what
`os.path.isabs` and `os.path.normpath` operate on. -/
def os.fspath : PathInput → String
  | .str s => s
  | .purePosixPath s => s

/-- Python `repr` of the path argument, as interpolated by
`"\x7b!r\x7d".format(path)` into the error messages of the source. -/
def PathInput.pyRepr : PathInput → String
  | .str s => squo ++ s ++ squo
  | .purePosixPath s => "PurePosixPath(" ++ squo ++ s ++ squo ++ ")"

/-- CPython `str.split(sep)` for a one-character separator: the result has
exactly one more part than there are separator occurrences. -/
def chSplit (sep : Char) : List Char → List (List Char)
  | [] => [[]]
  | c :: rest =>
    match chSplit sep rest with
    | [] => [[]]
    | h :: t => if c = sep then [] :: h :: t else (c :: h) :: t

/-- CPython `sep.join(parts)` for a one-character separator. -/
def chJoin (sep : Char) : List (List Char) → List Char
  | [] => []
  | [x] => x
  | x :: y :: t => x ++ sep :: chJoin sep (y :: t)

/-- CPython `str.startswith(pre)`. -/
def strStartsWith (s pre : String) : Bool :=
  pre.data.isPrefixOf s.data

/-- CPython `str.rstrip(ch)` for a one-character argument. -/
def dropTrailingChar (ch : Char) (cs : List Char) : List Char :=
  (cs.reverse.dropWhile (fun c => c == ch)).reverse

/-- One past the position of the last slash in the list, 0 when there is
none: the `p.rfind(sep) + 1` step of `posixpath.dirname`. -/
def lastSlashPos : List Char → Nat
  | [] => 0
  | c :: rest =>
    match lastSlashPos rest with
    | 0 => if c = '/' then 1 else 0
    | n + 1 => n + 2

/-- `posixpath.isabs`: a path is absolute iff it starts with a slash. -/
def os.path.isabs (path : String) : Bool :=
  strStartsWith path "/"

/-- `posixpath.join`, restricted to the two-argument form the source uses. -/
def os.path.join (a b : String) : String :=
  if strStartsWith b "/" then b
  else if a = "" ∨ a.data.getLast? = some '/' then a ++ b
  else a ++ "/" ++ b

/-- `posixpath.normpath`: collapse empty and `.` components, cancel `..`
against preceding components, and keep the special treatment of exactly two
leading slashes. -/
def os.path.normpath (path : String) : String :=
  if path = "" then "."
  else
    let initial_slashes : Nat :=
      if strStartsWith path "//" && !(strStartsWith path "///") then 2
      else if strStartsWith path "/" then 1
      else 0
    let comps := chSplit '/' path.data
    let new_comps := comps.foldl
      (fun acc comp =>
        if comp = [] ∨ comp = ['.'] then acc
        else if comp ≠ ['.', '.'] ∨ (initial_slashes = 0 ∧ acc = []) ∨
            acc.getLast? = some ['.', '.'] then
          acc ++ [comp]
        else if acc = [] then acc
        else acc.dropLast)
      []
    let res := List.replicate initial_slashes '/' ++ chJoin '/' new_comps
    if res = [] then "." else String.mk res

/-- `posixpath.dirname`: everything up to the last slash, with trailing
slashes stripped unless the head is all slashes. -/
def os.path.dirname (p : String) : String :=
  let head := p.data.take (lastSlashPos p.data)
  if head = [] then String.mk head
  else if head.all (fun c => c == '/') then String.mk head
  else String.mk (dropTrailingChar '/' head)

/-- `posixpath.abspath`, with the process working directory passed
explicitly instead of read from the process. -/
def os.path.abspath (cwd : String) (path : String) : String :=
  if os.path.isabs path then os.path.normpath path
  else os.path.normpath (os.path.join cwd path)

/-- The loader attached to a module spec; `open` only uses its `get_data`
method, which returns raw bytes for an absolute location or raises. -/
structure Loader where
  get_data : String → Except PyError (List Nat)

/-- The fields of `module.__spec__` that the source reads. -/
structure ModuleSpec where
  submodule_search_locations : Option (List String)
  origin : String
  loader : Loader

/-- A resolved module object: the source only touches its `__spec__`. -/
structure PyModule where
  __spec__ : ModuleSpec

/-- The host import system: what `importlib.import_module` returns for each
dotted name, plus the process working directory that `os.path.abspath`
consults. -/
structure Sys where
  import_module : String → Except PyError PyModule
  cwd : String

/-- The `package_name` argument: Python callers may pass a dotted-name
string or (per the test suite) an already-imported module object. -/
inductive PackageRef where
  | byName (name : String)
  | byModule (m : PyModule)

/-- Python `repr` of the `package_name` argument as interpolated into the
error message of `_get_package`.  (The module-object form never reaches
that formatting in the source, because `import_module` raises first.) -/
def PackageRef.pyRepr : PackageRef → String
  | .byName n => squo ++ n ++ squo
  | .byModule _ => "<module>"

/-- `importlib.import_module`: resolves a dotted-name string through the
host import system.  Its first statement evaluates `name.startswith(".")`,
so a module object raises `AttributeError` (no `startswith` attribute on a
module) before any later check can run.  The exact message text varies
with the interpreter version (newer CPythons interpolate the module's
name); the embedding fixes a representative wording, and no theorem below
relies on more than the error class. -/
def importlib.import_module (sys : Sys) : PackageRef → Except PyError PyModule
  | .byName n => sys.import_module n
  | .byModule _ =>
    .error (.attributeError ("module object has no attribute " ++ squo ++
      "startswith" ++ squo))

/-- `_get_package` from the source: import the argument, then require a
non-None `submodule_search_locations` on its spec. -/
def _get_package (sys : Sys) (package_name : PackageRef) : Except PyError PyModule :=
  match importlib.import_module sys package_name with
  | .error e => .error e
  | .ok module =>
    if module.__spec__.submodule_search_locations = none then
      .error (.typeError (package_name.pyRepr ++ " is not a package"))
    else
      .ok module

/-- `_normalize_path` from the source: reject absolute paths, normalize,
then reject a normalized result that starts with the two characters
`..`. -/
def _normalize_path (path : PathInput) : Except PyError String :=
  if os.path.isabs (os.fspath path) then
    .error (.valueError (path.pyRepr ++ " is absolute"))
  else
    let normalized_path := os.path.normpath (os.fspath path)
    if strStartsWith normalized_path ".." then
      .error (.valueError (path.pyRepr ++ " attempts to traverse past package"))
    else
      .ok normalized_path

/-- Models `io.BytesIO`: an in-memory seekable binary buffer with a cursor.
`io.BytesIO(data)` is `ByteStream.mk data 0`. -/
structure ByteStream where
  data : List Nat
  pos : Nat
  deriving Repr, DecidableEq

/-- `BytesIO.read()` with no size argument: return every byte from the
cursor on, leaving the cursor at the end. -/
def ByteStream.read (s : ByteStream) : List Nat × ByteStream :=
  (s.data.drop s.pos, { s with pos := s.data.length })

/-- `BytesIO.seek(n)`. -/
def ByteStream.seek (s : ByteStream) (n : Nat) : ByteStream :=
  { s with pos := n }

/-- `open` from the source, step for step: normalize the path, resolve the
package, derive the anchor directory from the spec origin, join, fetch the
bytes through the loader, and wrap them in a fresh `BytesIO`. -/
def «open» (sys : Sys) (package_name : PackageRef) (path : PathInput) :
    Except PyError ByteStream :=
  match _normalize_path path with
  | .error e => .error e
  | .ok normalized_path =>
    match _get_package sys package_name with
    | .error e => .error e
    | .ok package =>
      let package_path := os.path.dirname (os.path.abspath sys.cwd package.__spec__.origin)
      let full_path := os.path.join package_path normalized_path
      match package.__spec__.loader.get_data full_path with
      | .error e => .error e
      | .ok data => .ok { data := data, pos := 0 }

/-- A loader for the sample package: the resource `utf-8.file` holds two
known bytes and every other location is missing. -/
def sampleLoader : Loader :=
  { get_data := fun fp =>
      if fp = "/site/pkg/utf-8.file" then .ok [104, 105]
      else .error (.fileNotFoundError fp) }

/-- A sample package module: `submodule_search_locations` is non-None. -/
def samplePyModule : PyModule :=
  { __spec__ :=
      { submodule_search_locations := some ["/site/pkg"]
        origin := "/site/pkg/__init__.py"
        loader := sampleLoader } }

/-- A loader for the plain module's directory: the file `x` does exist
there, so the non-package rejection is not masked by a missing file. -/
def plainLoader : Loader :=
  { get_data := fun fp =>
      if fp = "/site/x" then .ok [120]
      else .error (.fileNotFoundError fp) }

/-- An ordinary (non-package) module: `submodule_search_locations` is
None. -/
def plainPyModule : PyModule :=
  { __spec__ :=
      { submodule_search_locations := none
        origin := "/site/plain.py"
        loader := plainLoader } }

/-- A concrete host import system with one package and one plain module. -/
def sampleSys : Sys :=
  { cwd := "/cwd"
    import_module := fun n =>
      if n = "pkg" then .ok samplePyModule
      else if n = "plain" then .ok plainPyModule
      else .error (.moduleNotFoundError n) }

/-- Once the path has normalized to `np` and the package has resolved to
`m`, `open` is exactly the loader fetch at the joined location, wrapped in
a fresh stream. -/
theorem open_fetch (sys : Sys) (ref : PackageRef) (p : PathInput) (np : String) (m : PyModule)
    (h1 : _normalize_path p = .ok np) (h2 : _get_package sys ref = .ok m) :
    «open» sys ref p =
      Except.map (fun d => { data := d, pos := 0 })
        (m.__spec__.loader.get_data
          (os.path.join (os.path.dirname (os.path.abspath sys.cwd m.__spec__.origin)) np)) := by
  unfold «open»
  rw [h1, h2]
  cases hd : m.__spec__.loader.get_data
      (os.path.join (os.path.dirname (os.path.abspath sys.cwd m.__spec__.origin)) np) <;>
    simp [Except.map, hd]

/-- Whatever `_normalize_path` raises is a `ValueError`. -/
theorem _normalize_path_error_kind (p : PathInput) (e : PyError)
    (h : _normalize_path p = .error e) : e.kind = ErrKind.valueErr := by
  unfold _normalize_path at h
  split at h
  · cases h
    rfl
  · dsimp only at h
    split at h
    · cases h
      rfl
    · cases h

/-- Whether a result is the `TypeError` that `_get_package` uses to signal
a non-package anchor. -/
def raisesNotAPackage : Except PyError ByteStream → Bool
  | .error (.typeError _) => true
  | _ => false

/-- C1: the source claims `open` accepts an already-resolved package handle
as-is, with results byte-identical to the name form.  Evaluating the code:
the name form succeeds, but the handle form is passed straight to
`importlib.import_module`, whose `name.startswith(".")` raises
`AttributeError` on a module object, so the two forms are not
byte-identical for the same resource. -/
theorem c1_module_object_form_fails :
    «open» sampleSys (.byName "pkg") (.str "utf-8.file") =
      .ok { data := [104, 105], pos := 0 } ∧
    «open» sampleSys (.byModule samplePyModule) (.str "utf-8.file") =
      .error (.attributeError ("module object has no attribute " ++ squo ++
        "startswith" ++ squo)) :=
  ⟨rfl, rfl⟩

/-- C2 counterexample: `plain` resolves to a non-package and `/x` is
absolute, yet the failure is the `ValueError` of path validation, not the
`TypeError` of package resolution — so resolution does not come first. -/
theorem c2_counterexample :
    «open» sampleSys (.byName "plain") (.str "/x") =
      .error (.valueError (squo ++ "/x" ++ squo ++ " is absolute")) ∧
    raisesNotAPackage («open» sampleSys (.byName "plain") (.str "/x")) = false :=
  ⟨rfl, rfl⟩

/-- C2 amended: `open` validates and normalizes the path before resolving
the package, so for every call whose reference resolves to a non-package
and whose path fails validation, the failure raised is the path
validation's `ValueError` (InvalidPath), not `NotAPackage`. -/
theorem c2_validation_precedes_resolution (sys : Sys) (ref : PackageRef)
    (p : PathInput) (m : PyModule) (e : PyError)
    (h1 : importlib.import_module sys ref = .ok m)
    (h2 : m.__spec__.submodule_search_locations = none)
    (h3 : _normalize_path p = .error e) :
    «open» sys ref p = .error e ∧ e.kind = ErrKind.valueErr := by
  constructor
  · unfold «open»
    rw [h3]
  · exact _normalize_path_error_kind p e h3

/-- Witness for C2's amended theorem at a concrete non-package and an
absolute path. -/
theorem c2_validation_precedes_resolution_witness :
    «open» sampleSys (.byName "plain") (.str "/x") =
      .error (.valueError (squo ++ "/x" ++ squo ++ " is absolute")) ∧
    (PyError.valueError (squo ++ "/x" ++ squo ++ " is absolute")).kind = ErrKind.valueErr :=
  c2_validation_precedes_resolution sampleSys (.byName "plain") (.str "/x")
    plainPyModule (.valueError (squo ++ "/x" ++ squo ++ " is absolute")) rfl rfl rfl

/-- C4: for every absolute path argument, `open` fails with the
`ValueError` of `_normalize_path` (InvalidPath), for every host system and
package reference — in particular before any resolution or data fetch. -/
theorem c4_absolute_rejected (sys : Sys) (ref : PackageRef) (p : PathInput)
    (h : os.path.isabs (os.fspath p) = true) :
    «open» sys ref p = .error (.valueError (p.pyRepr ++ " is absolute")) := by
  unfold «open» _normalize_path
  rw [h]
  simp

/-- Witness for C4 at a concrete absolute path that does not exist. -/
theorem c4_absolute_rejected_witness :
    «open» sampleSys (.byName "pkg") (.str "/etc/hosts") =
      .error (.valueError (squo ++ "/etc/hosts" ++ squo ++ " is absolute")) :=
  c4_absolute_rejected sampleSys (.byName "pkg") (.str "/etc/hosts") rfl

/-- C10: the traversal check is a raw two-character prefix test — every
relative path whose normalized form starts with the characters `..` is
rejected with the traversal `ValueError`, for every host system and
package reference. -/
theorem c10_raw_prefix_rejection (sys : Sys) (ref : PackageRef) (p : PathInput)
    (h1 : os.path.isabs (os.fspath p) = false)
    (h2 : strStartsWith (os.path.normpath (os.fspath p)) ".." = true) :
    «open» sys ref p =
      .error (.valueError (p.pyRepr ++ " attempts to traverse past package")) := by
  unfold «open» _normalize_path
  simp [h1, h2]

/-- Witness for C10 at `..hidden/file`, whose first segment is not a
parent-traversal segment and which does not escape the anchor, yet is
rejected. -/
theorem c10_raw_prefix_rejection_witness :
    «open» sampleSys (.byName "pkg") (.str "..hidden/file") =
      .error (.valueError (squo ++ "..hidden/file" ++ squo ++
        " attempts to traverse past package")) :=
  c10_raw_prefix_rejection sampleSys (.byName "pkg") (.str "..hidden/file") rfl rfl

/-- A string that begins with a `..` path segment begins with the two
characters `..`. -/
theorem startsWith_dotdot_of_seg (s : String)
    (h : s = ".." ∨ strStartsWith s "../" = true) :
    strStartsWith s ".." = true := by
  cases h with
  | inl h => rw [h]; rfl
  | inr h =>
    unfold strStartsWith at h ⊢
    rw [List.isPrefixOf_iff_prefix] at h ⊢
    exact List.IsPrefix.trans ⟨['/'], rfl⟩ h

/-- C5: every relative path whose normalized form begins with a
parent-traversal segment (it is `..`, or starts with `../`) is rejected by
`open` with the traversal `ValueError`, for every host system and package
reference; the rejection is exactly the string-prefix-after-normalization
test of `_normalize_path`. -/
theorem c5_traversal_rejected (sys : Sys) (ref : PackageRef) (p : PathInput)
    (h1 : os.path.isabs (os.fspath p) = false)
    (h2 : os.path.normpath (os.fspath p) = ".." ∨
      strStartsWith (os.path.normpath (os.fspath p)) "../" = true) :
    «open» sys ref p =
      .error (.valueError (p.pyRepr ++ " attempts to traverse past package")) := by
  have h3 := startsWith_dotdot_of_seg (os.path.normpath (os.fspath p)) h2
  unfold «open» _normalize_path
  simp [h1, h3]

/-- Witness for C5 at the spec's own example `../sibling/file`. -/
theorem c5_traversal_rejected_witness :
    «open» sampleSys (.byName "pkg") (.str "../sibling/file") =
      .error (.valueError (squo ++ "../sibling/file" ++ squo ++
        " attempts to traverse past package")) :=
  c5_traversal_rejected sampleSys (.byName "pkg") (.str "../sibling/file") rfl
    (Or.inr rfl)

/-- C6: whenever the name resolves to a module whose
`submodule_search_locations` is None, `open` fails with the
`TypeError` (NotAPackage) of `_get_package` — for every loader, in
particular one under which the requested file does exist. -/
theorem c6_non_package_rejected (sys : Sys) (n : String) (m : PyModule)
    (p : PathInput) (np : String)
    (h1 : sys.import_module n = .ok m)
    (h2 : m.__spec__.submodule_search_locations = none)
    (h3 : _normalize_path p = .ok np) :
    «open» sys (.byName n) p =
      .error (.typeError (squo ++ n ++ squo ++ " is not a package")) := by
  unfold «open»
  rw [h3]
  simp [_get_package, importlib.import_module, h1, h2, PackageRef.pyRepr]

/-- Witness for C6: `plain` is a non-package whose loader does have the
file `x`, and `open` still raises the NotAPackage `TypeError`. -/
theorem c6_non_package_rejected_witness :
    «open» sampleSys (.byName "plain") (.str "x") =
      .error (.typeError (squo ++ "plain" ++ squo ++ " is not a package")) ∧
    plainLoader.get_data "/site/x" = .ok [120] :=
  ⟨c6_non_package_rejected sampleSys "plain" plainPyModule (.str "x") "x" rfl rfl rfl,
    rfl⟩

/-- C3: when every step succeeds, `open` returns a fresh in-memory stream
holding exactly the bytes the loader returned for the computed location,
its cursor at offset 0, and a full read of it yields those bytes. -/
theorem c3_stream_snapshot (sys : Sys) (ref : PackageRef) (p : PathInput)
    (np : String) (m : PyModule) (b : List Nat)
    (h1 : _normalize_path p = .ok np)
    (h2 : _get_package sys ref = .ok m)
    (h3 : m.__spec__.loader.get_data
        (os.path.join (os.path.dirname (os.path.abspath sys.cwd m.__spec__.origin)) np) =
      .ok b) :
    «open» sys ref p = .ok { data := b, pos := 0 } ∧
      ({ data := b, pos := 0 } : ByteStream).read.1 = b ∧
      ({ data := b, pos := 0 } : ByteStream).pos = 0 := by
  refine ⟨?_, by simp [ByteStream.read], rfl⟩
  rw [open_fetch sys ref p np m h1 h2, h3]
  rfl

/-- Witness for C3 on the sample package's `utf-8.file`. -/
theorem c3_stream_snapshot_witness :
    «open» sampleSys (.byName "pkg") (.str "utf-8.file") =
      .ok { data := [104, 105], pos := 0 } ∧
    ({ data := [104, 105], pos := 0 } : ByteStream).read.1 = [104, 105] ∧
    ({ data := [104, 105], pos := 0 } : ByteStream).pos = 0 :=
  c3_stream_snapshot sampleSys (.byName "pkg") (.str "utf-8.file") "utf-8.file"
    samplePyModule [104, 105] rfl rfl rfl

/-- C7: on the successful path, `open` is exactly the loader's `get_data`
called at the directory of the absolute form of the package origin joined
with the validated normalized relative path. -/
theorem c7_full_path_location (sys : Sys) (ref : PackageRef) (p : PathInput)
    (np : String) (m : PyModule)
    (h1 : _normalize_path p = .ok np)
    (h2 : _get_package sys ref = .ok m) :
    «open» sys ref p =
      Except.map (fun d => { data := d, pos := 0 })
        (m.__spec__.loader.get_data
          (os.path.join (os.path.dirname (os.path.abspath sys.cwd m.__spec__.origin)) np)) :=
  open_fetch sys ref p np m h1 h2

/-- Witness for C7 on the sample package. -/
theorem c7_full_path_location_witness :
    «open» sampleSys (.byName "pkg") (.str "utf-8.file") =
      Except.map (fun d => { data := d, pos := 0 })
        (samplePyModule.__spec__.loader.get_data
          (os.path.join
            (os.path.dirname
              (os.path.abspath sampleSys.cwd samplePyModule.__spec__.origin))
            "utf-8.file")) :=
  c7_full_path_location sampleSys (.byName "pkg") (.str "utf-8.file") "utf-8.file"
    samplePyModule rfl rfl

/-- C8: any error the loader's `get_data` raises at the computed location
is returned by `open` as that very error, unchanged, and no stream is
returned. -/
theorem c8_loader_error_propagated (sys : Sys) (ref : PackageRef) (p : PathInput)
    (np : String) (m : PyModule) (e : PyError)
    (h1 : _normalize_path p = .ok np)
    (h2 : _get_package sys ref = .ok m)
    (h3 : m.__spec__.loader.get_data
        (os.path.join (os.path.dirname (os.path.abspath sys.cwd m.__spec__.origin)) np) =
      .error e) :
    «open» sys ref p = .error e := by
  rw [open_fetch sys ref p np m h1 h2, h3]
  rfl

/-- Witness for C8: the sample loader's not-found error for a missing file
comes back verbatim. -/
theorem c8_loader_error_propagated_witness :
    «open» sampleSys (.byName "pkg") (.str "missing.file") =
      .error (.fileNotFoundError "/site/pkg/missing.file") :=
  c8_loader_error_propagated sampleSys (.byName "pkg") (.str "missing.file")
    "missing.file" samplePyModule (.fileNotFoundError "/site/pkg/missing.file")
    rfl rfl rfl

/-- C9: a plain string and a path-like object with the same `__fspath__`
string give the same outcome from `open` — the same stream on success and
the same error class on failure. -/
theorem c9_path_type_equivalence (sys : Sys) (ref : PackageRef) (s : String) :
    Except.mapError PyError.kind («open» sys ref (.str s)) =
      Except.mapError PyError.kind («open» sys ref (.purePosixPath s)) := by
  unfold «open» _normalize_path
  simp only [os.fspath]
  by_cases h1 : os.path.isabs s = true
  · simp [h1, Except.mapError, PyError.kind]
  · rw [Bool.not_eq_true] at h1
    by_cases h2 : strStartsWith (os.path.normpath s) ".." = true
    · simp [h1, h2, Except.mapError, PyError.kind]
    · rw [Bool.not_eq_true] at h2
      simp [h1, h2]
